import Mathlib

/-!
Shallow embedding of the RustyDB WebSocket client example
(`src/examples/websocket_client.py`) and proofs of the specified
protocol properties.

The Python client is an async class `RustyDBWebSocketClient` holding a
transport handle (`self.websocket`), an optional JWT token, a reconnect
counter and an `authenticated` flag.  We embed it as a pure state
machine: the client object becomes the `Client` structure, the whole
execution context (pending inbound frames with arrival times, a model
clock, the stream of transport-connect outcomes, the sent-message trace
and the printed log) becomes the `World` structure, and each `async def`
method becomes a function `World → PyResult _`.  A Python method that
raises is modelled by `Except.error`; methods that raise do so before
mutating any state the callers observe, so an `error` result leaves the
world unchanged.
-/

namespace RustyDBWs

/-- Message payloads that the client builds or reads
(`payload` dictionaries in the Python source).  `dataBatch` carries
`rows` and `has_more` of a `data` frame; `errMsg` carries `message` and
`code` of an `error` frame; `streamQuery` is the params-less query
payload built inline by `example_8_streaming_results`. -/
inductive Payload where
  | auth (token : String)
  | query (sql : String) (params : List String) (streaming : Bool)
  | streamQuery (sql : String) (streaming : Bool)
  | dataBatch (rows : List String) (has_more : Bool)
  | errMsg (message : String) (code : String)
  | emptyPayload
  deriving DecidableEq

/-- The wire envelope: `type`, `payload`, `timestamp`, and the optional
correlation `id` (the `ping` message in the source carries no `id`). -/
structure Envelope where
  type : String
  payload : Payload
  timestamp : String
  id : Option String
  deriving DecidableEq

/-- Python's `payload.get ("rows", [])`. -/
def Payload.rowsOf : Payload → List String
  | .dataBatch rows _ => rows
  | _ => []

/-- Python's `payload.get ("has_more", False)`. -/
def Payload.hasMoreOf : Payload → Bool
  | .dataBatch _ hm => hm
  | _ => false

/-- An inbound websocket frame: bytes that `json.loads` parses into a
well-formed envelope object; bytes that `json.loads` parses into some
other (truthy) JSON value that is not a well-formed envelope — e.g. an
object with no `type` key, such as `\x7b"foo": 1\x7d`; or bytes on
which `json.loads` raises `JSONDecodeError`. -/
inductive Frame where
  | json (e : Envelope)
  | jsonOther (raw : String)
  | malformed (raw : String)
  deriving DecidableEq

/-- What `json.loads` yields on success, as far as the client inspects
it: either a well-formed envelope object, or some other truthy JSON
value carrying no `type` key — subscripting the latter with `"type"`,
as every reply-inspecting caller does, raises `KeyError`. -/
inductive PyJson where
  | envelope (e : Envelope)
  | nonEnvelope (raw : String)
  deriving DecidableEq

/-- The exceptions the modelled client can raise.  `runtimeError`
is Python `RuntimeError`; `connectionFailed` stands for whatever
exception `websockets.connect` raises; `keyError` is the Python
`KeyError` raised when a caller subscripts a reply that lacks the
accessed key; `blockedForever` marks the one branch (`recv` with no
timeout and no frame ever arriving) where the source suspends
indefinitely — no modelled caller reaches it, since every call site
passes a positive timeout. -/
inductive PyError where
  | runtimeError (msg : String)
  | connectionFailed (msg : String)
  | keyError (msg : String)
  | blockedForever
  deriving DecidableEq

/-- Result of a Python method: a value, or a raised exception. -/
abbrev PyResult (α : Type) := Except PyError α

/-- The client object's fields, as initialised by `__init__`
(lines 27-49 of the source). -/
structure Client where
  url : String
  auth_token : Option String
  auto_reconnect : Bool
  max_reconnect_attempts : Nat
  websocket : Option Nat
  reconnect_count : Nat
  authenticated : Bool
  deriving DecidableEq

/-- `RustyDBWebSocketClient.__init__`: no connection handle, counter 0,
`authenticated = False`. -/
def mkClient (url : String) (auth_token : Option String)
    (auto_reconnect : Bool) (max_reconnect_attempts : Nat) : Client :=
  { url := url, auth_token := auth_token, auto_reconnect := auto_reconnect,
    max_reconnect_attempts := max_reconnect_attempts,
    websocket := none, reconnect_count := 0, authenticated := false }

/-- The whole execution context of one client: the client object, the
pending inbound frames tagged with their arrival instants, the model
clock, a counter of `uuid.uuid4 ()` draws, the outcome of each
`websockets.connect` call (indexed by attempt), how many such calls were
made, the trace of sent envelopes and the printed log. -/
structure World where
  client : Client
  inbox : List (Nat × Frame)
  now : Nat
  uuidCount : Nat
  connOutcome : Nat → Bool
  connCalls : Nat
  sent : List Envelope
  log : List String

/-- Append one printed line to the log. -/
def pushLog (w : World) (s : String) : World :=
  { w with log := w.log ++ [s] }

/-- Set the client's `authenticated` flag. -/
def setAuthenticated (w : World) (b : Bool) : World :=
  { w with client := { w.client with authenticated := b } }

/-- Models `str (uuid.uuid4 ())` deterministically: the n-th draw of
the session.  The properties the client relies on — a fresh draw per
message, never the empty string — are preserved. -/
def uuid4Str (n : Nat) : String :=
  "00000000-0000-4000-8000-" ++ String.mk (Nat.toDigits 16 n)

/-- Models `datetime.now (timezone.utc).isoformat ()` at the model
clock instant `now`. -/
def timestampStr (now : Nat) : String := toString now

/-- The `auth` envelope built by `authenticate` (source lines 75-80). -/
def authEnvelope (token ts uid : String) : Envelope :=
  { type := "auth", payload := .auth token, timestamp := ts, id := some uid }

/-- The `query` envelope built by `execute_query` (source lines 142-151). -/
def queryEnvelope (sql : String) (params : List String) (streaming : Bool)
    (ts uid : String) : Envelope :=
  { type := "query", payload := .query sql params streaming,
    timestamp := ts, id := some uid }

/-- The `ping` envelope built by `ping` (source lines 158-162): note the
source builds it with no `id` field at all. -/
def pingEnvelope (ts : String) : Envelope :=
  { type := "ping", payload := .emptyPayload, timestamp := ts, id := none }

/-- The streaming `query` envelope built inline by
`example_8_streaming_results` (source lines 358-366); its payload has no
`params` key. -/
def streamQueryEnvelope (sql : String) (ts uid : String) : Envelope :=
  { type := "query", payload := .streamQuery sql true,
    timestamp := ts, id := some uid }

/-- `send_message` (source lines 98-104): raises
`RuntimeError ("Not connected to server")` when there is no connection
handle; otherwise serialises and transmits the envelope. -/
def send_message (w : World) (m : Envelope) : PyResult World :=
  match w.client.websocket with
  | none => .error (.runtimeError "Not connected to server")
  | some _ => .ok { w with sent := w.sent ++ [m] }

/-- Delivery step of `receive_message` once a frame is taken off the
socket at arrival instant `t`: `json.loads` either yields whatever the
bytes parse to — the method returns it without inspecting it, whether
or not it is a well-formed envelope — or raises `JSONDecodeError`,
which the source catches, logs and turns into `None` (source lines 119,
124-126). -/
def recvDeliver (w : World) (t : Nat) (f : Frame)
    (rest : List (Nat × Frame)) : Option PyJson × World :=
  match f with
  | .json e =>
      (some (.envelope e), { w with inbox := rest, now := max w.now t })
  | .jsonOther raw =>
      (some (.nonEnvelope raw), { w with inbox := rest, now := max w.now t })
  | .malformed _ =>
      (none, pushLog { w with inbox := rest, now := max w.now t }
        "Failed to parse JSON")

/-- `receive_message` (source lines 106-126): raises `RuntimeError` when
not connected; with a truthy timeout, waits up to that long for a frame
and catches `asyncio.TimeoutError` into a logged `None`; with timeout
`None` (or `0`, falsy) it awaits `recv` with no deadline. -/
def receive_message (w : World) (timeout : Option Nat) :
    PyResult (Option PyJson × World) :=
  match w.client.websocket with
  | none => .error (.runtimeError "Not connected to server")
  | some _ =>
    match timeout with
    | some (tmo + 1) =>
      match w.inbox with
      | [] =>
          .ok (none, pushLog { w with now := w.now + (tmo + 1) }
            "Timeout waiting for response")
      | (t, f) :: rest =>
          if t ≤ w.now + (tmo + 1) then .ok (recvDeliver w t f rest)
          else
            .ok (none, pushLog { w with now := w.now + (tmo + 1) }
              "Timeout waiting for response")
    | _ =>
      match w.inbox with
      | [] => .error .blockedForever
      | (t, f) :: rest => .ok (recvDeliver w t f rest)

/-- `authenticate` (source lines 69-96): with no token, logs a warning
and returns `False`; otherwise sends the `auth` envelope and reads one
reply with the default 5-unit timeout.  `auth_success` sets the flag and
returns `True`; `auth_error` clears the flag and returns `False`; an
envelope of any other type, or no reply at all, returns `False` with
the flag untouched; a truthy non-envelope reply makes the subscript
`response ["type"]` raise `KeyError`. -/
def authenticate (w : World) : PyResult (Bool × World) :=
  match w.client.auth_token with
  | none => .ok (false, pushLog w "No authentication token provided")
  | some tok =>
    let env := authEnvelope tok (timestampStr w.now) (uuid4Str w.uuidCount)
    let w1 := { w with uuidCount := w.uuidCount + 1 }
    match send_message w1 env with
    | .error e => .error e
    | .ok w2 =>
      let w3 := pushLog w2 "Sent authentication message"
      match receive_message w3 (some 5) with
      | .error e => .error e
      | .ok (some (.envelope r), w4) =>
        if r.type = "auth_success" then
          .ok (true, pushLog (setAuthenticated w4 true)
            "Authentication successful")
        else if r.type = "auth_error" then
          .ok (false, pushLog (setAuthenticated w4 false)
            "Authentication failed")
        else .ok (false, w4)
      | .ok (some (.nonEnvelope _), _) => .error (.keyError "type")
      | .ok (none, w4) => .ok (false, w4)

/-- `execute_query` (source lines 128-154): builds a `query` envelope
with a fresh uuid, sends it, and returns whatever `receive_message`
yields next under the default 5-unit timeout — no matching of the
reply's `id` against the request's `id` is performed. -/
def execute_query (w : World) (sql : String) (params : List String)
    (streaming : Bool) : PyResult (Option PyJson × World) :=
  let env := queryEnvelope sql params streaming
    (timestampStr w.now) (uuid4Str w.uuidCount)
  let w1 := { w with uuidCount := w.uuidCount + 1 }
  match send_message w1 env with
  | .error e => .error e
  | .ok w2 => receive_message w2 (some 5)

/-- `ping` (source lines 156-167): sends the id-less `ping` envelope and
reports whether the next frame within 5 units is a `pong`; a reply that
is not `None` but carries no `type` key makes
`response ["type"]` raise `KeyError`. -/
def ping (w : World) : PyResult (Bool × World) :=
  match send_message w (pingEnvelope (timestampStr w.now)) with
  | .error e => .error e
  | .ok w2 =>
    match receive_message w2 (some 5) with
    | .error e => .error e
    | .ok (some (.envelope r), w3) => .ok (r.type == "pong", w3)
    | .ok (some (.nonEnvelope _), _) => .error (.keyError "type")
    | .ok (none, w3) => .ok (false, w3)

/-- `close` (source lines 169-175): when a handle is present, releases
it and clears `authenticated`; otherwise does nothing.  It is a plain
total function — the second call never raises. -/
def close (w : World) : World :=
  match w.client.websocket with
  | none => w
  | some _ =>
      pushLog
        { w with client :=
            { w.client with websocket := none, authenticated := false } }
        "Connection closed"

/-- The assignment `self.reconnect_count = 0` at the end of a
successful `connect` (source line 63). -/
def resetReconnect (w : World) : World :=
  { w with client := { w.client with reconnect_count := 0 } }

/-- The tail of `connect` after the optional auth exchange: a raise
propagates, otherwise the boolean result is discarded and the reconnect
counter is reset. -/
def connectFinish (r : PyResult (Bool × World)) : PyResult World :=
  match r with
  | .error e => .error e
  | .ok (_, w4) => .ok (resetReconnect w4)

/-- `connect` (source lines 51-67): attempts `websockets.connect`; on
success stores the fresh handle, runs `authenticate` when a token is
configured (discarding its boolean result), and resets
`reconnect_count` to 0; on failure logs and re-raises.  State mutated
before a failed transport connect (the log line, the attempt counter) is
dropped with the raise; no modelled caller observes it. -/
def connect (w : World) : PyResult World :=
  let w1 := pushLog w ("Connecting to: " ++ w.client.url)
  let handle := w1.connCalls
  let ok := w1.connOutcome w1.connCalls
  let w2 := { w1 with connCalls := w1.connCalls + 1 }
  if ok then
    let w3 := pushLog
      { w2 with client := { w2.client with websocket := some handle } }
      "Connected successfully"
    match w3.client.auth_token with
    | none => .ok (resetReconnect w3)
    | some _ => connectFinish (authenticate w3)
  else .error (.connectionFailed "Connection failed")

/-- The retry loop of `example_7_reconnection` (source lines 317-342),
with the transport outcomes abstracted as a Boolean stream indexed by
attempt.  `remaining = max_retries - retry_count` drives the `while`;
`delay` is `retry_delay`.  Returns the list of delays slept between
attempts and whether a connect succeeded.  The source enters the loop
with `retry_delay = 1.0` and `max_retries = 3`, doubles the delay after
each sleep capped at `60.0`, and breaks without sleeping on success or
when the retry budget is exhausted. -/
def example7Loop (outcomes : Nat → Bool) (attempt : Nat) :
    Nat → Nat → List Nat × Bool
  | 0, _ => ([], false)
  | r + 1, delay =>
    if outcomes attempt then ([], true)
    else if r = 0 then ([], false)
    else
      let rest := example7Loop outcomes (attempt + 1) r (min (delay * 2) 60)
      (delay :: rest.1, rest.2)

/-- The backoff schedule as the spec words it: the derived current
delay `min (initialDelay * 2 ^ attempt, maxDelay)`.  Kept separate from
the loop embedding so the two can be compared. -/
def backoffSchedule (initialDelay attempt maxDelay : Nat) : Nat :=
  min (initialDelay * 2 ^ attempt) maxDelay

/-- Accumulator of the streaming loop of `example_8_streaming_results`:
the running `total_rows`, the rows handled so far (in handling order),
and the last `has_more` seen. -/
structure StreamAcc where
  totalRows : Nat
  delivered : List String
  hasMore : Bool
  deriving DecidableEq

/-- The `while True` loop of `example_8_streaming_results` (source
lines 369-390): each iteration reads one frame with a 10-unit timeout;
`None` (timeout or a frame `json.loads` rejects) breaks; a truthy
non-envelope reply makes `response ["type"]` raise `KeyError` out of
the loop; a `data` frame adds its rows and breaks when `has_more` is
falsy; an `error` frame breaks; any other envelope is ignored and the
loop continues.  `fuel` bounds the iteration count; one unit is
consumed per iteration. -/
def example8Loop (fuel : Nat) (w : World) (acc : StreamAcc) :
    PyResult (StreamAcc × World) :=
  match fuel with
  | 0 => .ok (acc, w)
  | fuel + 1 =>
    match receive_message w (some 10) with
    | .error e => .error e
    | .ok (none, w') => .ok (acc, pushLog w' "No more messages")
    | .ok (some (.nonEnvelope _), _) => .error (.keyError "type")
    | .ok (some (.envelope r), w') =>
      if r.type = "data" then
        let rows := r.payload.rowsOf
        let acc' : StreamAcc :=
          { totalRows := acc.totalRows + rows.length,
            delivered := acc.delivered ++ rows,
            hasMore := r.payload.hasMoreOf }
        if r.payload.hasMoreOf then example8Loop fuel w' acc'
        else .ok (acc', pushLog w' "All results received")
      else if r.type = "error" then .ok (acc, pushLog w' "Error")
      else example8Loop fuel w' acc

/-! Concrete scenario material shared by the individual claims. -/

/-- The default server URL from `__init__`. -/
def baseUrl : String := "ws://localhost:8080/api/v1/stream"

/-- A transport on which every `websockets.connect` call fails. -/
def noConn : Nat → Bool := fun _ => false

/-- A fresh execution context around a given client object and scripted
inbox, with the clock, counters and traces at their initial values. -/
def mkWorld (c : Client) (inbox : List (Nat × Frame)) : World :=
  { client := c, inbox := inbox, now := 0, uuidCount := 0,
    connOutcome := noConn, connCalls := 0, sent := [], log := [] }

/-- A client that already holds connection handle 0. -/
def connectedClient (tok : Option String) : Client :=
  { mkClient baseUrl tok true 5 with websocket := some 0 }

/-- Run `execute_query` (params `[]`, streaming) and extract the reply
and post-state; the error branch is never taken in the concrete
scenarios below. -/
def runQuery (w : World) (sql : String) : Option PyJson × World :=
  match execute_query w sql [] true with
  | .ok r => r
  | .error _ => (none, w)

/-- Run `authenticate` and extract its boolean result and post-state. -/
def runAuth (w : World) : Bool × World :=
  match authenticate w with
  | .ok r => r
  | .error _ => (false, w)

/-- Run `ping` and extract its boolean result and post-state. -/
def runPing (w : World) : Bool × World :=
  match ping w with
  | .ok r => r
  | .error _ => (false, w)

/-! C1 — request/response correlation. -/

/-- A server reply whose `id` is not the one the client's next request
will draw. -/
def envOther : Envelope :=
  { type := "data", payload := .dataBatch ["r"] false,
    timestamp := "srv", id := some "server-chose" }

/-- Connected world whose next inbound frame is `envOther`. -/
def wC1 : World := mkWorld (connectedClient none) [(0, .json envOther)]

/-- C1: the claim is false on the code.  `execute_query` sends the
request with id `uuid4Str 0` but delivers the next inbound frame
verbatim, here a reply carrying the unrelated id `"server-chose"`: the
reply delivered to the caller does not carry the id the request was
sent with. -/
theorem c1_counterexample :
    (runQuery wC1 "SELECT 1").1 = some (.envelope envOther) ∧
    (runQuery wC1 "SELECT 1").2.sent.map Envelope.id = [some (uuid4Str 0)] ∧
    envOther.id ≠ some (uuid4Str 0) := by
  refine ⟨rfl, rfl, by decide⟩

/-- The world after `execute_query` has sent its envelope and delivered
the frame that arrived at instant `t`, leaving `rest` pending. -/
def afterQueryDelivery (w : World) (sql : String) (params : List String)
    (streaming : Bool) (t : Nat) (rest : List (Nat × Frame)) : World :=
  { w with uuidCount := w.uuidCount + 1,
           sent := w.sent ++ [queryEnvelope sql params streaming
             (timestampStr w.now) (uuid4Str w.uuidCount)],
           inbox := rest, now := max w.now t }

/-- `execute_query` delivers exactly the head frame of the inbox when
it arrives within the 5-unit deadline, whatever its id. -/
theorem execQuery_head_frame (w : World) (hdl t : Nat) (e : Envelope)
    (rest : List (Nat × Frame)) (sql : String) (params : List String)
    (streaming : Bool)
    (hws : w.client.websocket = some hdl)
    (hinbox : w.inbox = (t, Frame.json e) :: rest)
    (ht : t ≤ w.now + 5) :
    execute_query w sql params streaming
      = .ok (some (.envelope e), afterQueryDelivery w sql params streaming t rest) := by
  simp only [execute_query, send_message, receive_message, recvDeliver,
    hws, hinbox, afterQueryDelivery]
  simp [ht]

/-- C1 (amended): the client performs no id matching — the reply
delivered to `execute_query`'s caller is exactly the next inbound frame,
whatever its id; consequently the delivered reply carries the request's
id precisely when the server answers with a frame echoing that id. -/
theorem c1_reply_is_next_frame (w : World) (hdl t : Nat) (e : Envelope)
    (rest : List (Nat × Frame)) (sql : String) (params : List String)
    (streaming : Bool)
    (hws : w.client.websocket = some hdl)
    (hinbox : w.inbox = (t, Frame.json e) :: rest)
    (ht : t ≤ w.now + 5) :
    execute_query w sql params streaming
      = .ok (some (.envelope e), afterQueryDelivery w sql params streaming t rest) ∧
    (afterQueryDelivery w sql params streaming t rest).sent
      = w.sent ++ [queryEnvelope sql params streaming
        (timestampStr w.now) (uuid4Str w.uuidCount)] ∧
    (e.id = some (uuid4Str w.uuidCount) →
      e.id = (queryEnvelope sql params streaming
        (timestampStr w.now) (uuid4Str w.uuidCount)).id) := by
  refine ⟨execQuery_head_frame w hdl t e rest sql params streaming
    hws hinbox ht, rfl, ?_⟩
  intro h
  simp [h, queryEnvelope]

/-- The echoing reply frame used by the C1 witness. -/
def envEcho : Envelope :=
  { type := "data", payload := .dataBatch ["a"] false,
    timestamp := "s", id := some (uuid4Str 0) }

/-- Connected world whose next inbound frame echoes the id the next
request will draw. -/
def wC1echo : World := mkWorld (connectedClient none) [(0, .json envEcho)]

/-- C1 witness: on a connected world whose next frame echoes the id the
request is sent with, the delivered reply carries that id. -/
theorem c1_witness :
    execute_query wC1echo "SELECT 1" [] true
      = .ok (some (.envelope envEcho),
          afterQueryDelivery wC1echo "SELECT 1" [] true 0 []) ∧
    (afterQueryDelivery wC1echo "SELECT 1" [] true 0 []).sent
      = wC1echo.sent ++ [queryEnvelope "SELECT 1" [] true
        (timestampStr wC1echo.now) (uuid4Str wC1echo.uuidCount)] ∧
    (envEcho.id = some (uuid4Str wC1echo.uuidCount) →
      envEcho.id = (queryEnvelope "SELECT 1" [] true
        (timestampStr wC1echo.now) (uuid4Str wC1echo.uuidCount)).id) :=
  c1_reply_is_next_frame wC1echo 0 0 envEcho [] "SELECT 1" [] true
    rfl rfl (by decide)

/-! C6 — which request envelopes carry an id. -/

/-- A `pong` reply frame. -/
def pongFrame : Frame :=
  .json { type := "pong", payload := .emptyPayload, timestamp := "s", id := none }

/-- Connected world whose next inbound frame is a `pong`. -/
def wC6 : World := mkWorld (connectedClient none) [(0, pongFrame)]

/-- C6: the claim is false on the code.  `ping` expects (and here
receives) a `pong` reply, yet the envelope it sends carries no `id`
field at all. -/
theorem c6_counterexample :
    (runPing wC6).1 = true ∧
    (runPing wC6).2.sent = [pingEnvelope (timestampStr 0)] ∧
    (pingEnvelope (timestampStr 0)).id = none := by
  refine ⟨rfl, rfl, rfl⟩

/-- C6 (amended): the `auth` and `query` envelopes carry a fresh
non-empty uuid as their id, but the `ping` envelope — though it expects
a `pong` reply — carries no id. -/
theorem c6_request_envelope_ids (tok sql ts : String) (params : List String)
    (streaming : Bool) (n : Nat) :
    (authEnvelope tok ts (uuid4Str n)).id = some (uuid4Str n) ∧
    (queryEnvelope sql params streaming ts (uuid4Str n)).id = some (uuid4Str n) ∧
    uuid4Str n ≠ "" ∧
    (pingEnvelope ts).id = none := by
  refine ⟨rfl, rfl, ?_, rfl⟩
  intro h
  have h2 := congrArg String.length h
  rw [uuid4Str, String.length_append] at h2
  have h3 : ("00000000-0000-4000-8000-" : String).length = 24 := rfl
  have h4 : ("" : String).length = 0 := rfl
  omega

/-! C8 — idempotence of close. -/

/-- C8: from every client state, a second `close` is a no-op — the
composite equals a single `close` — and one `close` leaves the
connection handle released; `close` is a total function, so the second
call cannot raise. -/
theorem c8_close_idempotent (w : World) :
    close (close w) = close w ∧ (close w).client.websocket = none := by
  cases h : w.client.websocket with
  | none => simp [close, h]
  | some n => simp [close, pushLog, h]

/-! C9 — operations on a disconnected client. -/

/-- C9 (amended): with no connection handle, `send_message`,
`receive_message`, `execute_query` and `ping` raise
`RuntimeError ("Not connected to server")`, and so does `authenticate`
whenever a token is configured; with no token configured,
`authenticate` instead returns `False` without attempting a send. -/
theorem c9_not_connected_errors (w : World) (m : Envelope) (sql : String)
    (params : List String) (streaming : Bool) (tmo : Option Nat)
    (h : w.client.websocket = none) :
    send_message w m = .error (.runtimeError "Not connected to server") ∧
    receive_message w tmo = .error (.runtimeError "Not connected to server") ∧
    execute_query w sql params streaming
      = .error (.runtimeError "Not connected to server") ∧
    ping w = .error (.runtimeError "Not connected to server") ∧
    (∀ tok, w.client.auth_token = some tok →
      authenticate w = .error (.runtimeError "Not connected to server")) ∧
    (w.client.auth_token = none →
      authenticate w
        = .ok (false, pushLog w "No authentication token provided")) := by
  refine ⟨?_, ?_, ?_, ?_, ?_, ?_⟩
  · simp [send_message, h]
  · simp [receive_message, h]
  · simp [execute_query, send_message, h]
  · simp [ping, send_message, h]
  · intro tok htok
    simp [authenticate, htok, send_message, h]
  · intro htok
    simp [authenticate, htok]

/-- A never-connected client constructed with a token. -/
def wC9tok : World := mkWorld (mkClient baseUrl (some "jwt") true 5) []

/-- A never-connected client constructed without a token. -/
def wC9none : World := mkWorld (mkClient baseUrl none true 5) []

/-- C9 witness: the disconnected client with a token raises on
`execute_query` and on `authenticate`. -/
theorem c9_witness :
    execute_query wC9tok "SELECT 1" [] true
      = .error (.runtimeError "Not connected to server") ∧
    authenticate wC9tok = .error (.runtimeError "Not connected to server") :=
  ⟨(c9_not_connected_errors wC9tok (pingEnvelope "x") "SELECT 1" [] true
      none rfl).2.2.1,
   (c9_not_connected_errors wC9tok (pingEnvelope "x") "SELECT 1" [] true
      none rfl).2.2.2.2.1 "jwt" rfl⟩

/-- C9: the claim is false on the code as stated — on a disconnected
client with no token configured, `authenticate` does not raise
`RuntimeError`; it returns `False` silently (only a warning is
printed). -/
theorem c9_counterexample :
    wC9none.client.websocket = none ∧
    authenticate wC9none
      = .ok (false, pushLog wC9none "No authentication token provided") := by
  refine ⟨rfl, rfl⟩

/-! C2 — behaviour on an `auth_error` reply. -/

/-- The world after `authenticate` has sent its envelope and received an
`auth_error` reply that arrived at instant `t`: the flag is cleared,
nothing else about the session changes. -/
def afterAuthError (w : World) (tok : String) (t : Nat)
    (rest : List (Nat × Frame)) : World :=
  { w with client := { w.client with authenticated := false },
           uuidCount := w.uuidCount + 1,
           sent := w.sent ++ [authEnvelope tok (timestampStr w.now)
             (uuid4Str w.uuidCount)],
           inbox := rest, now := max w.now t,
           log := w.log ++ ["Sent authentication message",
             "Authentication failed"] }

/-- `authenticate` on an `auth_error` reply arriving within the 5-unit
deadline: returns `False` with the flag cleared and nothing else of the
session changed. -/
theorem authenticate_authError (w : World) (tok : String) (hdl t : Nat)
    (r : Envelope) (rest : List (Nat × Frame))
    (htok : w.client.auth_token = some tok)
    (hws : w.client.websocket = some hdl)
    (hinbox : w.inbox = (t, Frame.json r) :: rest)
    (ht : t ≤ w.now + 5)
    (hr : r.type = "auth_error") :
    authenticate w = .ok (false, afterAuthError w tok t rest) := by
  simp only [authenticate, htok, send_message, receive_message,
    recvDeliver, pushLog, setAuthenticated, afterAuthError, hws, hinbox]
  simp [ht, hr]
  exact ⟨htok, hws⟩

/-- C2 (amended): on an `auth_error` reply, `authenticate` returns
`False` with `authenticated` cleared, makes no reconnect attempt (the
count of transport connect calls is unchanged), and does not end the
session — the connection handle stays in place; the code has no `Failed`
state. -/
theorem c2_auth_error_no_reconnect (w : World) (tok : String) (hdl t : Nat)
    (r : Envelope) (rest : List (Nat × Frame))
    (htok : w.client.auth_token = some tok)
    (hws : w.client.websocket = some hdl)
    (hinbox : w.inbox = (t, Frame.json r) :: rest)
    (ht : t ≤ w.now + 5)
    (hr : r.type = "auth_error") :
    authenticate w = .ok (false, afterAuthError w tok t rest) ∧
    (afterAuthError w tok t rest).client.authenticated = false ∧
    (afterAuthError w tok t rest).client.websocket = some hdl ∧
    (afterAuthError w tok t rest).connCalls = w.connCalls := by
  refine ⟨authenticate_authError w tok hdl t r rest htok hws hinbox ht hr,
    rfl, ?_, rfl⟩
  simp [afterAuthError, hws]

/-- The `auth_error` reply used in the C2 scenario. -/
def authErrEnv : Envelope :=
  { type := "auth_error", payload := .errMsg "invalid token" "401",
    timestamp := "s", id := some "a1" }

/-- A later `data` reply showing the session still works. -/
def dataEnv2 : Envelope :=
  { type := "data", payload := .dataBatch ["x"] false,
    timestamp := "s", id := some "q2" }

/-- Connected world with a bad token whose server answers `auth_error`
and then keeps serving. -/
def wC2 : World :=
  mkWorld (connectedClient (some "bad-token"))
    [(0, .json authErrEnv), (1, .json dataEnv2)]

/-- C2: the claim is false on the code.  After the `auth_error` reply
the session has not ended in any failed state: the connection handle is
still held and a subsequent query on the same session is answered.
(The no-reconnect half of the claim does hold: `connCalls` stays 0.) -/
theorem c2_counterexample :
    (runAuth wC2).1 = false ∧
    (runAuth wC2).2.client.websocket = some 0 ∧
    (runQuery (runAuth wC2).2 "SELECT 2").1 = some (.envelope dataEnv2) ∧
    (runAuth wC2).2.connCalls = wC2.connCalls := by
  refine ⟨rfl, rfl, rfl, rfl⟩

/-- C2 witness: the amended statement at the concrete `wC2` scenario. -/
theorem c2_witness :
    authenticate wC2
      = .ok (false, afterAuthError wC2 "bad-token" 0 [(1, .json dataEnv2)]) ∧
    (afterAuthError wC2 "bad-token" 0 [(1, .json dataEnv2)]).client.authenticated
      = false ∧
    (afterAuthError wC2 "bad-token" 0 [(1, .json dataEnv2)]).client.websocket
      = some 0 ∧
    (afterAuthError wC2 "bad-token" 0 [(1, .json dataEnv2)]).connCalls
      = wC2.connCalls :=
  c2_auth_error_no_reconnect wC2 "bad-token" 0 0 authErrEnv
    [(1, .json dataEnv2)] rfl rfl rfl (by decide) rfl

/-! C4 — per-request timeouts are local. -/

/-- The world after `execute_query` has sent its envelope and its
5-unit receive deadline has elapsed with no frame delivered: the clock
advanced by the deadline and the timeout warning was logged — the
connection itself is untouched. -/
def afterQueryTimeout (w : World) (sql : String) (params : List String)
    (streaming : Bool) : World :=
  { w with uuidCount := w.uuidCount + 1,
           sent := w.sent ++ [queryEnvelope sql params streaming
             (timestampStr w.now) (uuid4Str w.uuidCount)],
           now := w.now + 5,
           log := w.log ++ ["Timeout waiting for response"] }

/-- C4: a request whose reply does not arrive within the default 5-unit
deadline resolves through the caught `asyncio.TimeoutError` branch
(warning logged, `None` delivered); the client object — in particular
the connection handle — is untouched, the pending frame is not consumed,
and a subsequent unrelated request on the same session completes
normally once the frame is within its own deadline. -/
theorem c4_timeout_is_local (w : World) (hdl t : Nat) (e : Envelope)
    (rest : List (Nat × Frame)) (sql1 sql2 : String)
    (params1 params2 : List String) (s1 s2 : Bool)
    (hws : w.client.websocket = some hdl)
    (hinbox : w.inbox = (t, Frame.json e) :: rest)
    (hlate : w.now + 5 < t)
    (hin : t ≤ w.now + 10) :
    execute_query w sql1 params1 s1
      = .ok (none, afterQueryTimeout w sql1 params1 s1) ∧
    (afterQueryTimeout w sql1 params1 s1).client = w.client ∧
    (afterQueryTimeout w sql1 params1 s1).inbox = w.inbox ∧
    (afterQueryTimeout w sql1 params1 s1).log
      = w.log ++ ["Timeout waiting for response"] ∧
    execute_query (afterQueryTimeout w sql1 params1 s1) sql2 params2 s2
      = .ok (some (.envelope e), afterQueryDelivery (afterQueryTimeout w sql1 params1 s1)
          sql2 params2 s2 t rest) := by
  have hnot : ¬ t ≤ w.now + 5 := by omega
  refine ⟨?_, rfl, rfl, rfl, ?_⟩
  · simp only [execute_query, send_message, receive_message, pushLog,
      afterQueryTimeout, hws, hinbox]
    simp [hnot]
  · have ht2 : t ≤ (w.now + 5) + 5 := by omega
    exact execQuery_head_frame (afterQueryTimeout w sql1 params1 s1) hdl t e
      rest sql2 params2 s2 (by simp [afterQueryTimeout, hws])
      (by simp [afterQueryTimeout, hinbox])
      (by simpa [afterQueryTimeout] using ht2)

/-- The late reply of the C4 scenario: it arrives at instant 7, past the
first request's deadline but within the second's. -/
def envLate : Envelope :=
  { type := "data", payload := .dataBatch ["y"] false,
    timestamp := "s", id := some "q1" }

/-- Connected world whose only reply arrives at instant 7. -/
def wC4 : World := mkWorld (connectedClient none) [(7, .json envLate)]

/-- C4 witness: the statement at the concrete `wC4` scenario. -/
theorem c4_witness :
    execute_query wC4 "SELECT a" [] true
      = .ok (none, afterQueryTimeout wC4 "SELECT a" [] true) ∧
    (afterQueryTimeout wC4 "SELECT a" [] true).client = wC4.client ∧
    (afterQueryTimeout wC4 "SELECT a" [] true).inbox = wC4.inbox ∧
    (afterQueryTimeout wC4 "SELECT a" [] true).log
      = wC4.log ++ ["Timeout waiting for response"] ∧
    execute_query (afterQueryTimeout wC4 "SELECT a" [] true) "SELECT b" [] true
      = .ok (some (.envelope envLate), afterQueryDelivery
          (afterQueryTimeout wC4 "SELECT a" [] true) "SELECT b" [] true 7 []) :=
  c4_timeout_is_local wC4 0 7 envLate [] "SELECT a" "SELECT b" [] [] true true
    rfl rfl (by decide) (by decide)

/-! C7 — what the receive path does with undecodable inbound frames. -/

/-- The world after the receive path has consumed a frame that failed
JSON decoding at instant `t`: the frame is gone, the failure is logged,
nothing else changes. -/
def afterMalformedDrop (w : World) (t : Nat)
    (rest : List (Nat × Frame)) : World :=
  { w with inbox := rest, now := max w.now t,
           log := w.log ++ ["Failed to parse JSON"] }

/-- The world after the receive path has taken a JSON-parsable frame
that arrived at instant `t` off the socket and handed the parsed value
to the caller, without logging anything. -/
def afterJsonDelivery (w : World) (t : Nat)
    (rest : List (Nat × Frame)) : World :=
  { w with inbox := rest, now := max w.now t }

/-- Bytes that parse as JSON but not as an envelope: an object with no
`type` key. -/
def nonEnvJson : String := "\x7b\"foo\": 1\x7d"

/-- Connected world whose next inbound frame parses as JSON but is not
a well-formed envelope. -/
def wC7x : World := mkWorld (connectedClient none) [(0, .jsonOther nonEnvJson)]

/-- C7: the claim is false on the code.  The frame `\x7b"foo": 1\x7d`
does not parse as a well-formed envelope, yet the receive path neither
logs nor drops it: it returns the parsed value to the caller (the log
is unchanged), and a caller that inspects the reply — here `ping` —
crashes with `KeyError ("type")` instead of the connection remaining
usable. -/
theorem c7_counterexample :
    receive_message wC7x (some 5)
      = .ok (some (.nonEnvelope nonEnvJson), afterJsonDelivery wC7x 0 []) ∧
    (afterJsonDelivery wC7x 0 []).log = wC7x.log ∧
    ping wC7x = .error (.keyError "type") := by
  refine ⟨rfl, rfl, rfl⟩

/-- C7 (amended): an inbound frame whose bytes do not parse as JSON at
all is logged and dropped by `receive_message` — the `JSONDecodeError`
is caught, not propagated, the client object is untouched, and a
following well-formed frame is delivered normally; but a frame whose
bytes parse as JSON without forming a well-formed envelope is returned
to the caller un-logged and un-dropped, and a caller that then reads
the reply's type — such as `ping` — raises `KeyError`. -/
theorem c7_decode_failures (w : World) (hdl t tmo : Nat)
    (raw : String) (rest : List (Nat × Frame))
    (hws : w.client.websocket = some hdl)
    (ht : t ≤ w.now + (tmo + 1)) :
    (w.inbox = (t, Frame.malformed raw) :: rest →
      receive_message w (some (tmo + 1))
        = .ok (none, afterMalformedDrop w t rest) ∧
      (afterMalformedDrop w t rest).client = w.client ∧
      (afterMalformedDrop w t rest).inbox = rest ∧
      (afterMalformedDrop w t rest).log
        = w.log ++ ["Failed to parse JSON"] ∧
      (∀ e t2 rest2, rest = (t2, Frame.json e) :: rest2 →
        t2 ≤ max w.now t + (tmo + 1) →
        receive_message (afterMalformedDrop w t rest) (some (tmo + 1))
          = .ok (some (.envelope e), afterJsonDelivery
              (afterMalformedDrop w t rest) t2 rest2))) ∧
    (w.inbox = (t, Frame.jsonOther raw) :: rest →
      receive_message w (some (tmo + 1))
        = .ok (some (.nonEnvelope raw), afterJsonDelivery w t rest) ∧
      (afterJsonDelivery w t rest).log = w.log ∧
      (t ≤ w.now + 5 → ping w = .error (.keyError "type"))) := by
  constructor
  · intro hinbox
    refine ⟨?_, rfl, rfl, rfl, ?_⟩
    · simp only [receive_message, recvDeliver, pushLog, afterMalformedDrop,
        hws, hinbox]
      simp [ht]
    · intro e t2 rest2 hr ht2
      simp only [receive_message, recvDeliver, afterMalformedDrop,
        afterJsonDelivery, hws, hr]
      simp [ht2]
  · intro hinbox
    refine ⟨?_, rfl, ?_⟩
    · simp only [receive_message, recvDeliver, afterJsonDelivery,
        hws, hinbox]
      simp [ht]
    · intro ht5
      simp only [ping, send_message, receive_message, recvDeliver,
        hws, hinbox]
      simp [ht5]

/-- World for the malformed-bytes branch of C7: a frame `json.loads`
rejects, followed by a well-formed one. -/
def wC7 : World :=
  mkWorld (connectedClient none)
    [(0, .malformed "not json at all"), (1, .json dataEnv2)]

/-- C7 witness: both branches of the amended statement at concrete
scenarios, with the default 5-unit timeout (`tmo = 4`): `wC7` for the
logged-and-dropped branch, `wC7x` for the returned-then-crash branch. -/
theorem c7_witness :
    receive_message wC7 (some (4 + 1))
      = .ok (none, afterMalformedDrop wC7 0 [(1, .json dataEnv2)]) ∧
    receive_message wC7x (some (4 + 1))
      = .ok (some (.nonEnvelope nonEnvJson), afterJsonDelivery wC7x 0 []) ∧
    ping wC7x = .error (.keyError "type") :=
  ⟨((c7_decode_failures wC7 0 0 4 "not json at all"
      [(1, .json dataEnv2)] rfl (by decide)).1 rfl).1,
   ((c7_decode_failures wC7x 0 0 4 nonEnvJson [] rfl (by decide)).2 rfl).1,
   (((c7_decode_failures wC7x 0 0 4 nonEnvJson [] rfl (by decide)).2
      rfl).2.2 (by decide))⟩

/-! C10 — dynamics of the `authenticated` flag. -/

/-- The world after `authenticate` has received an `auth_success` reply
that arrived at instant `t`. -/
def afterAuthSuccess (w : World) (tok : String) (t : Nat)
    (rest : List (Nat × Frame)) : World :=
  { w with client := { w.client with authenticated := true },
           uuidCount := w.uuidCount + 1,
           sent := w.sent ++ [authEnvelope tok (timestampStr w.now)
             (uuid4Str w.uuidCount)],
           inbox := rest, now := max w.now t,
           log := w.log ++ ["Sent authentication message",
             "Authentication successful"] }

/-- The world after `authenticate` has received a reply of some type
other than `auth_success`/`auth_error`: the flag is untouched. -/
def afterAuthOther (w : World) (tok : String) (t : Nat)
    (rest : List (Nat × Frame)) : World :=
  { w with uuidCount := w.uuidCount + 1,
           sent := w.sent ++ [authEnvelope tok (timestampStr w.now)
             (uuid4Str w.uuidCount)],
           inbox := rest, now := max w.now t,
           log := w.log ++ ["Sent authentication message"] }

/-- The world after `authenticate` has received no reply at all within
its 5-unit deadline: the flag is untouched. -/
def afterAuthNoReply (w : World) (tok : String) : World :=
  { w with uuidCount := w.uuidCount + 1,
           sent := w.sent ++ [authEnvelope tok (timestampStr w.now)
             (uuid4Str w.uuidCount)],
           now := w.now + 5,
           log := w.log ++ ["Sent authentication message",
             "Timeout waiting for response"] }

/-- C10 (amended): `authenticated` starts `False` at construction, is
set `True` exactly by an `auth_success` reply and `False` by an
`auth_error` reply, and is cleared by `close` whenever a connection is
open; but a missing (or unrecognised) auth reply leaves the flag
unchanged, and a `connect` performed with no token configured does not
reset it — so the flag can remain `True` from an earlier session. -/
theorem c10_authenticated_flag :
    (∀ url tok ar mra, (mkClient url tok ar mra).authenticated = false) ∧
    (∀ w hdl, w.client.websocket = some hdl →
      (close w).client.authenticated = false) ∧
    (∀ w tok hdl t r rest, w.client.auth_token = some tok →
      w.client.websocket = some hdl →
      w.inbox = (t, Frame.json r) :: rest → t ≤ w.now + 5 →
      ((r.type = "auth_success" →
          authenticate w = .ok (true, afterAuthSuccess w tok t rest) ∧
          (afterAuthSuccess w tok t rest).client.authenticated = true) ∧
       (r.type = "auth_error" →
          authenticate w = .ok (false, afterAuthError w tok t rest) ∧
          (afterAuthError w tok t rest).client.authenticated = false) ∧
       (r.type ≠ "auth_success" → r.type ≠ "auth_error" →
          authenticate w = .ok (false, afterAuthOther w tok t rest) ∧
          (afterAuthOther w tok t rest).client.authenticated
            = w.client.authenticated))) ∧
    (∀ w tok hdl, w.client.auth_token = some tok →
      w.client.websocket = some hdl → w.inbox = [] →
      authenticate w = .ok (false, afterAuthNoReply w tok) ∧
      (afterAuthNoReply w tok).client.authenticated
        = w.client.authenticated) ∧
    (∀ w w', w.client.auth_token = none → connect w = .ok w' →
      w'.client.authenticated = w.client.authenticated) := by
  refine ⟨fun url tok ar mra => rfl, ?_, ?_, ?_, ?_⟩
  · intro w hdl hws
    simp [close, pushLog, hws]
  · intro w tok hdl t r rest htok hws hinbox ht
    refine ⟨?_, ?_, ?_⟩
    · intro hr
      refine ⟨?_, rfl⟩
      simp only [authenticate, htok, send_message, receive_message,
        recvDeliver, pushLog, setAuthenticated, afterAuthSuccess, hws, hinbox]
      simp [ht, hr]
      exact ⟨htok, hws⟩
    · intro hr
      exact ⟨authenticate_authError w tok hdl t r rest htok hws hinbox
        ht hr, rfl⟩
    · intro hr1 hr2
      refine ⟨?_, rfl⟩
      simp only [authenticate, htok, send_message, receive_message,
        recvDeliver, pushLog, setAuthenticated, afterAuthOther, hws, hinbox]
      simp [ht, hr1, hr2]
  · intro w tok hdl htok hws hinbox
    refine ⟨?_, rfl⟩
    simp only [authenticate, htok, send_message, receive_message,
      pushLog, afterAuthNoReply, hws, hinbox]
    simp
  · intro w w' htok hc
    simp only [connect, pushLog, htok] at hc
    by_cases hob : w.connOutcome w.connCalls
    · simp [hob] at hc
      cases hc
      rfl
    · simp [hob] at hc

/-- The `auth_success` reply used in the C10 scenario. -/
def authOkEnv : Envelope :=
  { type := "auth_success", payload := .emptyPayload,
    timestamp := "s", id := some "a1" }

/-- Connected world with a token whose server answers `auth_success`
once and then goes silent. -/
def wC10 : World := mkWorld (connectedClient (some "jwt")) [(0, .json authOkEnv)]

/-- The session after the successful first handshake: `authenticated`
is `True` and the inbox is empty. -/
def wC10b : World := (runAuth wC10).2

/-- C10: the claim is false on the code.  After a successful handshake,
a second `authenticate` whose reply never arrives returns `False` but
leaves `authenticated` at `True` — a missing auth reply does not set the
flag to `False` as claimed. -/
theorem c10_counterexample :
    wC10b.client.authenticated = true ∧
    (runAuth wC10b).1 = false ∧
    (runAuth wC10b).2.client.authenticated = true := by
  refine ⟨rfl, rfl, rfl⟩

/-- C10 witness: the construction, close and missing-reply parts of the
amended statement at concrete inputs. -/
theorem c10_witness :
    (mkClient baseUrl none true 5).authenticated = false ∧
    (close wC10b).client.authenticated = false ∧
    (authenticate wC10b = .ok (false, afterAuthNoReply wC10b "jwt") ∧
      (afterAuthNoReply wC10b "jwt").client.authenticated
        = wC10b.client.authenticated) :=
  ⟨c10_authenticated_flag.1 baseUrl none true 5,
   c10_authenticated_flag.2.1 wC10b 0 rfl,
   c10_authenticated_flag.2.2.2.1 wC10b "jwt" 0 rfl rfl rfl⟩

/-! C3 — exponential backoff of the reconnect loop. -/

/-- Capping before or after doubling a capped delay gives the same
capped value. -/
theorem min_double_cap (m : Nat) : min (min m 60 * 2) 60 = min (m * 2) 60 := by
  omega

/-- Closed form of the delays slept by the retry loop when every
connect attempt fails: starting from the capped delay `min (2 ^ k) 60`,
the j-th sleep is `min (2 ^ (k + j)) 60`. -/
theorem example7Loop_allFail_delays (n : Nat) : ∀ a k : Nat,
    (example7Loop (fun _ => false) a (n + 1) (min (2 ^ k) 60)).1
      = (List.range n).map (fun j => min (2 ^ (k + j)) 60) := by
  induction n with
  | zero => intro a k; rw [example7Loop]; simp
  | succ m ih =>
    intro a k
    have hstep : min (min (2 ^ k) 60 * 2) 60 = min (2 ^ (k + 1)) 60 := by
      rw [min_double_cap, pow_succ]
    rw [example7Loop]
    rw [if_neg (by simp)]
    rw [if_neg (Nat.succ_ne_zero m)]
    rw [hstep]
    dsimp only
    rw [ih (a + 1) (k + 1)]
    rw [List.range_succ_eq_map, List.map_cons, List.map_map]
    refine congrArg₂ _ (by simp) ?_
    refine congrArg₂ _ (funext fun j => ?_) rfl
    simp [Function.comp, Nat.add_assoc, Nat.add_comm 1 j]

/-- C3: when every connect attempt of the retry loop fails, the delay
slept before retry `j` is exactly the spec's derived schedule
`min (1 * 2 ^ j, 60)` — the sequence 1, 2, 4, 8, ... capped at 60; a
successful connect ends the loop at once with no further sleeps, and a
successful `connect()` resets `reconnect_count` to 0, so the derived
current delay is back at the initial delay 1. -/
theorem c3_backoff_schedule :
    (∀ n, (example7Loop (fun _ => false) 0 (n + 1) 1).1
        = (List.range n).map (fun j => backoffSchedule 1 j 60)) ∧
    (∀ outcomes a n d, outcomes a = true →
      example7Loop outcomes a (n + 1) d = ([], true)) ∧
    (∀ w w', connect w = .ok w' →
      w'.client.reconnect_count = 0 ∧
      backoffSchedule 1 w'.client.reconnect_count 60 = 1) := by
  have haux : ∀ (r : PyResult (Bool × World)) w',
      connectFinish r = .ok w' → w'.client.reconnect_count = 0 := by
    intro r w' h
    cases r with
    | error e => simp [connectFinish] at h
    | ok p =>
      simp only [connectFinish] at h
      cases h
      rfl
  refine ⟨?_, ?_, ?_⟩
  · intro n
    have h := example7Loop_allFail_delays n 0 0
    have e1 : min (2 ^ 0) 60 = 1 := by decide
    rw [e1] at h
    rw [h]
    refine congrArg₂ _ (funext fun j => ?_) rfl
    simp [backoffSchedule]
  · intro outcomes a n d ho
    simp [example7Loop, ho]
  · intro w w' hc
    suffices hcnt : w'.client.reconnect_count = 0 by
      exact ⟨hcnt, by rw [hcnt]; decide⟩
    by_cases hob : w.connOutcome w.connCalls
    · cases htok : w.client.auth_token with
      | none =>
        simp [connect, pushLog, hob, htok] at hc
        cases hc
        rfl
      | some tk =>
        simp [connect, pushLog, hob, htok] at hc
        exact haux _ _ hc
    · simp [connect, pushLog, hob] at hc

/-- A world whose transport accepts every connect attempt. -/
def wC3 : World :=
  { mkWorld (mkClient baseUrl none true 5) [] with
      connOutcome := fun _ => true }

/-- The session after a successful `connect()` on `wC3`. -/
def wC3after : World :=
  match connect wC3 with
  | .ok w => w
  | .error _ => wC3

/-- C3 witness: a first-attempt success sleeps nothing, and after the
successful `connect()` the derived backoff delay is back at 1. -/
theorem c3_witness :
    example7Loop (fun _ => true) 0 (2 + 1) 1 = ([], true) ∧
    wC3after.client.reconnect_count = 0 ∧
    backoffSchedule 1 wC3after.client.reconnect_count 60 = 1 :=
  ⟨c3_backoff_schedule.2.1 (fun _ => true) 0 2 1 rfl,
   (c3_backoff_schedule.2.2 wC3 wC3after rfl).1,
   (c3_backoff_schedule.2.2 wC3 wC3after rfl).2⟩

/-! C5 — streaming result assembly. -/

/-- First server batch: 5 rows, `has_more = true`. -/
def batch1 : Envelope :=
  { type := "data", payload := .dataBatch ["r1", "r2", "r3", "r4", "r5"] true,
    timestamp := "s", id := some "q" }

/-- Second server batch: 3 rows, `has_more = false` (terminal). -/
def batch2 : Envelope :=
  { type := "data", payload := .dataBatch ["r6", "r7", "r8"] false,
    timestamp := "s", id := some "q" }

/-- A further batch that the loop must never consume. -/
def batch3 : Envelope :=
  { type := "data", payload := .dataBatch ["r9"] false,
    timestamp := "s", id := some "q" }

/-- An `error` frame. -/
def errEnv : Envelope :=
  { type := "error", payload := .errMsg "boom" "500",
    timestamp := "s", id := some "q" }

/-- The C5 scenario: batches `[(5 rows, has_more = true),
(3 rows, has_more = false)]`, with an extra frame behind them. -/
def wC5 : World :=
  mkWorld (connectedClient none)
    [(0, .json batch1), (1, .json batch2), (2, .json batch3)]

/-- The error variant: the second frame is an `error`. -/
def wC5err : World :=
  mkWorld (connectedClient none)
    [(0, .json batch1), (1, .json errEnv), (2, .json batch3)]

/-- The cursor state at the start of the streaming loop. -/
def emptyAcc : StreamAcc := { totalRows := 0, delivered := [], hasMore := true }

/-- Run the streaming loop with ample fuel and extract the final cursor
and world; the error branch is never taken in the scenarios below. -/
def runStream (w : World) : StreamAcc × World :=
  match example8Loop 5 w emptyAcc with
  | .ok r => r
  | .error _ => (emptyAcc, w)

/-- C5: on server batches `[(5 rows, true), (3 rows, false)]` the
streaming loop ends with `totalDelivered = 8` and `hasMore = false`,
terminating exactly on the `has_more = false` frame (the frame behind it
is left unconsumed) and delivering no row twice; on an `error` frame the
loop terminates with only the rows received before the error. -/
theorem c5_streaming_cursor :
    (runStream wC5).1.totalRows = 8 ∧
    (runStream wC5).1.hasMore = false ∧
    (runStream wC5).1.delivered
      = ["r1", "r2", "r3", "r4", "r5", "r6", "r7", "r8"] ∧
    (runStream wC5).1.delivered.Nodup ∧
    (runStream wC5).2.inbox = [(2, .json batch3)] ∧
    (runStream wC5).2.log.getLast? = some "All results received" ∧
    (runStream wC5err).1.totalRows = 5 ∧
    (runStream wC5err).2.inbox = [(2, .json batch3)] ∧
    (runStream wC5err).2.log.getLast? = some "Error" := by
  refine ⟨rfl, rfl, rfl, by decide, rfl, rfl, rfl, rfl, rfl⟩

end RustyDBWs
